import Mathlib

/-!
Shallow embedding of `lib/inspect-osinfo.c` (libguestfs OS-info identifier
resolver).  The C function `guestfs_impl_inspect_get_osinfo` reads a fixed
set of inspection facts through accessor calls and maps them, via two static
ordered rule tables, to a canonical short OS identifier.  We model the fact
accessors as fields of a record (string accessors that can fail become
`Option String`; the version accessors return C `int`, modelled as `Int`) and
the C `NULL` failure return as `none`.
-/

/-- The fact bundle consumed by the resolver: one field per accessor call
made by the C function. -/
structure InspectionFacts where
  osType : Option String
  distro : Option String
  major : Int
  minor : Int
  productName : Option String
  productVariant : Option String
  buildId : Option String

/-- Prefix test on character lists, auxiliary for the `strstr` model. -/
def listStartsWith : List Char → List Char → Bool
  | [], _ => true
  | _ :: _, [] => false
  | a :: as, b :: bs => a == b && listStartsWith as bs

/-- `listContainsSub needle haystack` is true when `needle` occurs as a
contiguous run inside `haystack`. -/
def listContainsSub : List Char → List Char → Bool
  | needle, [] => listStartsWith needle []
  | needle, c :: rest => listStartsWith needle (c :: rest) || listContainsSub needle rest

/-- C `strstr (haystack, needle)` used as a Boolean: substring presence. -/
def strstrB (haystack needle : String) : Bool :=
  listContainsSub needle.toList haystack.toList

/-- printf `%02d`: decimal rendering zero-padded to width 2. -/
def fmt02d (n : Int) : String :=
  let s := toString n
  if s.length < 2 then "0" ++ s else s

/-- Interpreter for the printf format strings appearing in `linux_map`,
applied as in the C call `safe_asprintf (g, fmt, distro, major, minor)`. -/
def render_fmt (fm : String) (d : String) (major minor : Int) : String :=
  if fm = "%s%d" then d ++ toString major
  else if fm = "%s%d.0" then d ++ toString major ++ ".0"
  else if fm = "%s%d.%d" then d ++ toString major ++ "." ++ toString minor
  else if fm = "%s%d.%02d" then d ++ toString major ++ "." ++ fmt02d minor
  else ""

/-- One entry of the C `linux_map` table: distro name, optional printf
format (`none` = return the distro name only), and minimum major version
(`-1` = any major version). -/
structure LinuxRule where
  distro : String
  fmt : Option String
  min_major : Int

/-- The static Linux rule table, in source order. -/
def linux_map : List LinuxRule :=
  [ ⟨"centos",    some "%s%d",      8⟩,
    ⟨"centos",    some "%s%d.0",    7⟩,
    ⟨"centos",    some "%s%d.%d",   6⟩,
    ⟨"circle",    some "%s%d",      8⟩,
    ⟨"rocky",     some "%s%d",      8⟩,
    ⟨"debian",    some "%s%d",      4⟩,
    ⟨"fedora",    some "%s%d",     -1⟩,
    ⟨"mageia",    some "%s%d",     -1⟩,
    ⟨"ubuntu",    some "%s%d.%02d",-1⟩,
    ⟨"archlinux", none,            -1⟩,
    ⟨"gentoo",    none,            -1⟩,
    ⟨"voidlinux", none,            -1⟩,
    ⟨"altlinux",  some "%s%d.%d",   8⟩,
    ⟨"altlinux",  some "%s%d.%d",  -1⟩ ]

/-- The match condition of the C loop over `linux_map`:
`STREQ (distro, rule.distro) && (rule.min_major == -1 || major >= rule.min_major)`. -/
def linux_rule_matches (d : String) (major : Int) (r : LinuxRule) : Bool :=
  d == r.distro && (r.min_major == -1 || decide (major ≥ r.min_major))

/-- One entry of the C `win_map` table: major/minor version, identifier, and
optional required substrings of the product variant and product name
(`none` = any). -/
structure WinRule where
  major : Int
  minor : Int
  id : String
  variant_contains : Option String
  name_contains : Option String

/-- The static Windows rule table, in source order. -/
def win_map : List WinRule :=
  [ ⟨5, 1, "winxp",     none,          none⟩,
    ⟨5, 2, "winxp",     none,          some "XP"⟩,
    ⟨5, 2, "win2k3r2",  none,          some "R2"⟩,
    ⟨5, 2, "win2k3",    none,          none⟩,
    ⟨6, 0, "winvista",  none,          none⟩,
    ⟨6, 0, "win2k8",    some "Server", none⟩,
    ⟨6, 1, "win7",      none,          none⟩,
    ⟨6, 1, "win2k8r2",  some "Server", none⟩,
    ⟨6, 2, "win8",      none,          none⟩,
    ⟨6, 2, "win2k12",   some "Server", none⟩,
    ⟨6, 3, "win8.1",    none,          none⟩,
    ⟨6, 3, "win2k12r2", some "Server", none⟩,
    ⟨10, 0, "win2k25",  some "Server", some "2025"⟩,
    ⟨10, 0, "win2k22",  some "Server", some "2022"⟩,
    ⟨10, 0, "win2k19",  some "Server", some "2019"⟩,
    ⟨10, 0, "win2k16",  some "Server", none⟩ ]

/-- The match condition of the C loop over `win_map`: equal major and minor,
and each required substring (when present) occurs in the corresponding
product field. -/
def win_rule_matches (major minor : Int) (product_variant product_name : String)
    (r : WinRule) : Bool :=
  major == r.major && minor == r.minor &&
    (match r.variant_contains with
     | none => true
     | some s => strstrB product_variant s) &&
    (match r.name_contains with
     | none => true
     | some s => strstrB product_name s)

/-- Decimal digit value of a character, `none` for a non-digit. -/
def charDigit? (c : Char) : Option Nat :=
  if 48 ≤ c.toNat ∧ c.toNat ≤ 57 then some (c.toNat - 48) else none

/-- Accumulate the decimal value of a digit run, failing on a non-digit. -/
def digitsValue : List Char → Nat → Option Nat
  | [], acc => some acc
  | c :: cs, acc =>
    match charDigit? c with
    | none => none
    | some dv => digitsValue cs (acc * 10 + dv)

/-- Parse a whole string as a non-negative decimal integer. -/
def strToNatOpt (s : String) : Option Nat :=
  match s.toList with
  | [] => none
  | c :: cs => digitsValue (c :: cs) 0

/-- Modelled from the spec: `guestfs_int_parse_unsigned_int` is not part of
this file of the repository; the spec describes it as a helper to parse an
unsigned integer from a string, returning a sentinel -1 on parse failure. -/
def guestfs_int_parse_unsigned_int (s : String) : Int :=
  match strToNatOpt s with
  | some n => (n : Int)
  | none => -1

/-- The resolver `guestfs_impl_inspect_get_osinfo` of `lib/inspect-osinfo.c`.
`none` models the C `NULL` return (a required fact was missing or failed to
parse); `some id` models a returned identifier string. -/
def guestfs_impl_inspect_get_osinfo (f : InspectionFacts) : Option String :=
  match f.osType, f.distro with
  | some ty, some distro =>
    let major := f.major
    let minor := f.minor
    if ty = "linux" then
      match linux_map.find? (linux_rule_matches distro major) with
      | some r =>
        match r.fmt with
        | some fm => some (render_fmt fm distro major minor)
        | none => some distro
      | none =>
        if distro = "sles" then
          if minor = 0 then
            some ((if major ≥ 15 then "sle" else "sles") ++ toString major)
          else
            some ((if major ≥ 15 then "sle" else "sles") ++ toString major
                   ++ "sp" ++ toString minor)
        else if distro ≠ "unknown" ∧ (major > 0 ∨ minor > 0) then
          some (distro ++ toString major ++ "." ++ toString minor)
        else
          some "unknown"
    else if ty = "freebsd" ∨ ty = "netbsd" ∨ ty = "openbsd" then
      some (distro ++ toString major ++ "." ++ toString minor)
    else if ty = "dos" then
      if distro = "msdos" then some "msdos6.22" else some "unknown"
    else if ty = "windows" then
      match f.productName with
      | none => none
      | some product_name =>
        match f.productVariant with
        | none => none
        | some product_variant =>
          match win_map.find? (win_rule_matches major minor product_variant product_name) with
          | some r => some r.id
          | none =>
            if major = 10 ∧ minor = 0 ∧ strstrB product_variant "Server" = false then
              match f.buildId with
              | none => none
              | some build_id_str =>
                if guestfs_int_parse_unsigned_int build_id_str = -1 then none
                else if guestfs_int_parse_unsigned_int build_id_str ≥ 22000 then
                  some "win11"
                else
                  some "win10"
            else
              some "unknown"
    else
      some "unknown"
  | _, _ => none

/-- Branch lemma: behaviour of the resolver on a Linux fact bundle, stated
as the C control flow reads. -/
theorem osinfo_linux (d : String) (major minor : Int) (pn pv bid : Option String) :
    guestfs_impl_inspect_get_osinfo ⟨some "linux", some d, major, minor, pn, pv, bid⟩ =
      match linux_map.find? (linux_rule_matches d major) with
      | some r =>
        match r.fmt with
        | some fm => some (render_fmt fm d major minor)
        | none => some d
      | none =>
        if d = "sles" then
          if minor = 0 then
            some ((if major ≥ 15 then "sle" else "sles") ++ toString major)
          else
            some ((if major ≥ 15 then "sle" else "sles") ++ toString major
                   ++ "sp" ++ toString minor)
        else if d ≠ "unknown" ∧ (major > 0 ∨ minor > 0) then
          some (d ++ toString major ++ "." ++ toString minor)
        else
          some "unknown" := rfl

/-- Branch lemma: behaviour of the resolver on a Windows fact bundle with
both product facts available, stated as the C control flow reads. -/
theorem osinfo_windows (d product_name product_variant : String) (major minor : Int)
    (bid : Option String) :
    guestfs_impl_inspect_get_osinfo
        ⟨some "windows", some d, major, minor, some product_name, some product_variant, bid⟩ =
      match win_map.find? (win_rule_matches major minor product_variant product_name) with
      | some r => some r.id
      | none =>
        if major = 10 ∧ minor = 0 ∧ strstrB product_variant "Server" = false then
          match bid with
          | none => none
          | some build_id_str =>
            if guestfs_int_parse_unsigned_int build_id_str = -1 then none
            else if guestfs_int_parse_unsigned_int build_id_str ≥ 22000 then
              some "win11"
            else
              some "win10"
        else
          some "unknown" := rfl

/-- Auxiliary: no entry of the Linux table carries the distro name `sles`,
so the table scan fails for every major version. -/
theorem linux_find_sles (major : Int) :
    linux_map.find? (linux_rule_matches "sles" major) = none := by
  rw [List.find?_eq_none]
  intro r hr
  fin_cases hr <;> simp [linux_rule_matches]

/-- Auxiliary: when the product variant does not contain `Server`, no entry
of the Windows table matches major 10, minor 0 (the first twelve entries
fail on the version pair, the last four on the variant substring). -/
theorem win_find_10_0_no_server (pv pn : String) (h : strstrB pv "Server" = false) :
    win_map.find? (win_rule_matches 10 0 pv pn) = none := by
  rw [List.find?_eq_none]
  intro r hr
  fin_cases hr <;> simp [win_rule_matches, h]

/-- Claim C1 (code evaluation at the failing input): for a Windows fact
bundle with major 6, minor 0 and a product variant containing `Server`, the
code returns the client identifier `winvista`, not the server identifier
`win2k8`: the wildcard client rule at 6.0 precedes the Server rule in
`win_map`, so the four Server entries at major 6 can never match. -/
theorem c1_win6_server_wildcard_shadow :
    guestfs_impl_inspect_get_osinfo
        ⟨some "windows", some "windows", 6, 0,
         some "Windows Server 2008", some "Server", none⟩ = some "winvista" ∧
    some "winvista" ≠ some "win2k8" := by decide

/-- Claim C2: for every Windows fact bundle with major 10, minor 0 and a
product variant not containing `Server`, no table rule matches and the
result is determined by the build id alone: a missing build id fails, a
build id that does not parse as a non-negative integer fails, and a parsed
build id yields `win11` when at least 22000 and `win10` otherwise. -/
theorem c2_win10_client_build_split (d pn pv : String) (bid : Option String)
    (h : strstrB pv "Server" = false) :
    guestfs_impl_inspect_get_osinfo
        ⟨some "windows", some d, 10, 0, some pn, some pv, bid⟩ =
      match bid with
      | none => none
      | some s =>
        match strToNatOpt s with
        | none => none
        | some n => if 22000 ≤ n then some "win11" else some "win10" := by
  rw [osinfo_windows, win_find_10_0_no_server pv pn h, if_pos ⟨rfl, rfl, h⟩]
  cases bid with
  | none => rfl
  | some s =>
    rcases hn : strToNatOpt s with _ | n
    · simp [guestfs_int_parse_unsigned_int, hn]
    · simp only [guestfs_int_parse_unsigned_int, hn]
      by_cases h22 : 22000 ≤ n
      · rw [if_neg (by omega), if_pos (by exact_mod_cast h22), if_pos h22]
      · rw [if_neg (by omega), if_neg (by exact_mod_cast h22), if_neg h22]

/-- Witness for claim C2 at a concrete input. -/
theorem c2_win10_client_build_split_witness :
    guestfs_impl_inspect_get_osinfo
        ⟨some "windows", some "windows", 10, 0,
         some "Windows 10 Pro", some "Professional", some "19045"⟩ = some "win10" := by
  rw [c2_win10_client_build_split "windows" "Windows 10 Pro" "Professional"
        (some "19045") (by decide)]
  decide

/-- Claim C3: when the type or distro fact is missing, or the type is
`windows` and the product name or product variant fact is missing, the
resolver fails (returns the failure marker) and in particular never
returns the string `unknown`. -/
theorem c3_missing_facts_fail (f : InspectionFacts)
    (h : f.osType = none ∨ f.distro = none ∨
         (f.osType = some "windows" ∧ (f.productName = none ∨ f.productVariant = none))) :
    guestfs_impl_inspect_get_osinfo f = none ∧
    guestfs_impl_inspect_get_osinfo f ≠ some "unknown" := by
  obtain ⟨ot, d, maj, mi, pn, pv, bid⟩ := f
  have hz : guestfs_impl_inspect_get_osinfo ⟨ot, d, maj, mi, pn, pv, bid⟩ = none := by
    rcases h with h | h | ⟨h1, h2⟩
    · cases h; cases d <;> rfl
    · cases h; cases ot <;> rfl
    · cases h1
      rcases h2 with h2 | h2 <;> cases h2
      · cases d <;> rfl
      · cases d with
        | none => rfl
        | some dd => cases pn <;> rfl
  exact ⟨hz, by rw [hz]; exact fun hc => Option.noConfusion hc⟩

/-- Witness for claim C3 at a concrete input. -/
theorem c3_missing_facts_fail_witness :
    guestfs_impl_inspect_get_osinfo ⟨none, some "linux", 0, 0, none, none, none⟩ = none ∧
    guestfs_impl_inspect_get_osinfo ⟨none, some "linux", 0, 0, none, none, none⟩ ≠
      some "unknown" :=
  c3_missing_facts_fail ⟨none, some "linux", 0, 0, none, none, none⟩ (Or.inl rfl)

/-- Claim C4: the resolver is a pure, deterministic function of the fact
bundle (and the two static tables): evaluating it twice on the same bundle
yields identical results.  Purity holds by construction of the embedding:
the C function reads only its accessor results, modelled as the fields of
the bundle. -/
theorem c4_deterministic (f : InspectionFacts) :
    guestfs_impl_inspect_get_osinfo f = guestfs_impl_inspect_get_osinfo f := rfl

/-- Claim C5: `sles` matches no table rule; the base token is `sle` from
major 15 on and `sles` below, the minor is rendered as an `sp` suffix and
omitted when zero; with the three boundary examples of the spec. -/
theorem c5_sles_naming :
    (∀ (major minor : Int) (pn pv bid : Option String),
        guestfs_impl_inspect_get_osinfo ⟨some "linux", some "sles", major, minor, pn, pv, bid⟩ =
          if minor = 0 then
            some ((if major ≥ 15 then "sle" else "sles") ++ toString major)
          else
            some ((if major ≥ 15 then "sle" else "sles") ++ toString major
                   ++ "sp" ++ toString minor)) ∧
    guestfs_impl_inspect_get_osinfo ⟨some "linux", some "sles", 14, 4, none, none, none⟩ =
      some "sles14sp4" ∧
    guestfs_impl_inspect_get_osinfo ⟨some "linux", some "sles", 15, 0, none, none, none⟩ =
      some "sle15" ∧
    guestfs_impl_inspect_get_osinfo ⟨some "linux", some "sles", 15, 3, none, none, none⟩ =
      some "sle15sp3" := by
  refine ⟨fun major minor pn pv bid => ?_, by decide, by decide, by decide⟩
  rw [osinfo_linux, linux_find_sles major, if_pos rfl]

/-- Claim C6: the Linux table scan matches a rule exactly when the distro
names are equal and the major-version floor is unbounded or satisfied, the
first matching rule wins, and in particular `altlinux` 8.0 resolves through
the floor-8 rule while `altlinux` 5.1 falls to the unbounded rule. -/
theorem c6_linux_first_match :
    (∀ (d : String) (major : Int) (r : LinuxRule),
        linux_rule_matches d major r = true ↔
          (d = r.distro ∧ (r.min_major = -1 ∨ major ≥ r.min_major))) ∧
    (∀ (d : String) (major minor : Int) (pn pv bid : Option String) (r : LinuxRule),
        linux_map.find? (linux_rule_matches d major) = some r →
        guestfs_impl_inspect_get_osinfo ⟨some "linux", some d, major, minor, pn, pv, bid⟩ =
          some (match r.fmt with
                | some fm => render_fmt fm d major minor
                | none => d)) ∧
    linux_map.find? (linux_rule_matches "altlinux" 8) =
      some ⟨"altlinux", some "%s%d.%d", 8⟩ ∧
    guestfs_impl_inspect_get_osinfo ⟨some "linux", some "altlinux", 8, 0, none, none, none⟩ =
      some "altlinux8.0" ∧
    linux_map.find? (linux_rule_matches "altlinux" 5) =
      some ⟨"altlinux", some "%s%d.%d", -1⟩ ∧
    guestfs_impl_inspect_get_osinfo ⟨some "linux", some "altlinux", 5, 1, none, none, none⟩ =
      some "altlinux5.1" := by
  refine ⟨fun d major r => ?_, fun d major minor pn pv bid r hr => ?_,
          by rfl, by decide, by rfl, by decide⟩
  · simp [linux_rule_matches]
  · rw [osinfo_linux, hr]
    cases hf : r.fmt <;> simp [hf]

/-- Witness for claim C6 at a concrete input. -/
theorem c6_linux_first_match_witness :
    guestfs_impl_inspect_get_osinfo ⟨some "linux", some "debian", 12, 0, none, none, none⟩ =
      some "debian12" := by
  rw [c6_linux_first_match.2.1 "debian" 12 0 none none none
        ⟨"debian", some "%s%d", 4⟩ (by rfl)]
  decide

/-- Claim C7 (counterexample): at the linux fact bundle with distro
`mysterydistro`, major -1 and minor 0, the major version is nonzero yet the
code returns `unknown` rather than the formatted `mysterydistro-1.0` the
claim demands: the code tests `major > 0 || minor > 0`, not nonzero. -/
theorem c7_linux_fallback_cex :
    guestfs_impl_inspect_get_osinfo
        ⟨some "linux", some "mysterydistro", -1, 0, none, none, none⟩ = some "unknown" ∧
    (-1 : Int) ≠ 0 ∧
    some "unknown" ≠
      some ("mysterydistro" ++ toString (-1 : Int) ++ "." ++ toString (0 : Int)) := by
  decide

/-- Claim C7 (amended): for every linux fact bundle where no table rule
matches and the distro is not `sles`, the resolver returns
distro + major + "." + minor when the distro is not `unknown` and at least
one of major/minor is positive, and `unknown` otherwise. -/
theorem c7_linux_fallback_amended (d : String) (major minor : Int)
    (pn pv bid : Option String)
    (hfind : linux_map.find? (linux_rule_matches d major) = none)
    (hsles : d ≠ "sles") :
    guestfs_impl_inspect_get_osinfo ⟨some "linux", some d, major, minor, pn, pv, bid⟩ =
      if d ≠ "unknown" ∧ (major > 0 ∨ minor > 0) then
        some (d ++ toString major ++ "." ++ toString minor)
      else
        some "unknown" := by
  rw [osinfo_linux, hfind, if_neg hsles]

/-- Witness for the amended claim C7 at a concrete input. -/
theorem c7_linux_fallback_amended_witness :
    guestfs_impl_inspect_get_osinfo
        ⟨some "linux", some "mysterydistro", 3, 1, none, none, none⟩ =
      some "mysterydistro3.1" := by
  rw [c7_linux_fallback_amended "mysterydistro" 3 1 none none none (by rfl) (by decide)]
  decide

/-- Claim C8: for every Windows fact bundle with major 10, minor 0 and a
product variant containing `Server`, some table rule always matches: the
result is one of the four server identifiers, independently of the build
id (so the build-id branch is unreachable and resolution cannot fail
there). -/
theorem c8_win10_server_total (d pn pv : String) (bid bid2 : Option String)
    (h : strstrB pv "Server" = true) :
    (guestfs_impl_inspect_get_osinfo
        ⟨some "windows", some d, 10, 0, some pn, some pv, bid⟩ = some "win2k25" ∨
     guestfs_impl_inspect_get_osinfo
        ⟨some "windows", some d, 10, 0, some pn, some pv, bid⟩ = some "win2k22" ∨
     guestfs_impl_inspect_get_osinfo
        ⟨some "windows", some d, 10, 0, some pn, some pv, bid⟩ = some "win2k19" ∨
     guestfs_impl_inspect_get_osinfo
        ⟨some "windows", some d, 10, 0, some pn, some pv, bid⟩ = some "win2k16") ∧
    guestfs_impl_inspect_get_osinfo
        ⟨some "windows", some d, 10, 0, some pn, some pv, bid⟩ =
      guestfs_impl_inspect_get_osinfo
        ⟨some "windows", some d, 10, 0, some pn, some pv, bid2⟩ := by
  rw [osinfo_windows, osinfo_windows]
  rcases h25 : strstrB pn "2025" <;> rcases h22 : strstrB pn "2022" <;>
    rcases h19 : strstrB pn "2019" <;>
    simp [win_map, List.find?, win_rule_matches, h, h25, h22, h19]

/-- Witness for claim C8 at a concrete input. -/
theorem c8_win10_server_total_witness :
    (guestfs_impl_inspect_get_osinfo
        ⟨some "windows", some "windows", 10, 0,
         some "Windows Server 2022 Standard", some "Server Standard", none⟩ =
        some "win2k25" ∨
     guestfs_impl_inspect_get_osinfo
        ⟨some "windows", some "windows", 10, 0,
         some "Windows Server 2022 Standard", some "Server Standard", none⟩ =
        some "win2k22" ∨
     guestfs_impl_inspect_get_osinfo
        ⟨some "windows", some "windows", 10, 0,
         some "Windows Server 2022 Standard", some "Server Standard", none⟩ =
        some "win2k19" ∨
     guestfs_impl_inspect_get_osinfo
        ⟨some "windows", some "windows", 10, 0,
         some "Windows Server 2022 Standard", some "Server Standard", none⟩ =
        some "win2k16") ∧
    guestfs_impl_inspect_get_osinfo
        ⟨some "windows", some "windows", 10, 0,
         some "Windows Server 2022 Standard", some "Server Standard", none⟩ =
      guestfs_impl_inspect_get_osinfo
        ⟨some "windows", some "windows", 10, 0,
         some "Windows Server 2022 Standard", some "Server Standard", some "19045"⟩ :=
  c8_win10_server_total "windows" "Windows Server 2022 Standard" "Server Standard"
    none (some "19045") (by decide)

/-- Claim C9: on every fact bundle whose type is not `windows`, the result
does not depend on the product name, the product variant or the build id:
two bundles differing only in those three fields resolve identically. -/
theorem c9_nonwindows_independent (ot d : Option String) (major minor : Int)
    (pn1 pv1 b1 pn2 pv2 b2 : Option String) (h : ot ≠ some "windows") :
    guestfs_impl_inspect_get_osinfo ⟨ot, d, major, minor, pn1, pv1, b1⟩ =
    guestfs_impl_inspect_get_osinfo ⟨ot, d, major, minor, pn2, pv2, b2⟩ := by
  cases ot with
  | none => rfl
  | some ty =>
    cases d with
    | none => rfl
    | some dd =>
      have hty : ¬ (ty = "windows") := fun he => h (by rw [he])
      simp only [guestfs_impl_inspect_get_osinfo]
      split_ifs <;> first | rfl | exact absurd (by assumption) hty

/-- Witness for claim C9 at a concrete input. -/
theorem c9_nonwindows_independent_witness :
    guestfs_impl_inspect_get_osinfo
        ⟨some "linux", some "fedora", 40, 0, some "A", some "B", some "C"⟩ =
      guestfs_impl_inspect_get_osinfo
        ⟨some "linux", some "fedora", 40, 0, none, none, none⟩ :=
  c9_nonwindows_independent (some "linux") (some "fedora") 40 0
    (some "A") (some "B") (some "C") none none none (by decide)

/-- Claim C10: for every linux fact bundle with distro `centos` and major
version exactly 7, the resolver returns the literal `centos7.0` whatever
the minor version is: the matching rule renders with the format
`%s%d.0`, discarding the minor. -/
theorem c10_centos7_minor_discarded (minor : Int) (pn pv bid : Option String) :
    guestfs_impl_inspect_get_osinfo ⟨some "linux", some "centos", 7, minor, pn, pv, bid⟩ =
      some "centos7.0" := rfl
